import Mathlib

set_option maxRecDepth 8000

/-!
Verification of the Asana chat agent (`src/my-agent/agent.py`).

The Python source is shallowly embedded below:
* pure helpers (`str.strip`, `str.lower`, date formatting, `strptime` with
  format `%Y-%m-%d`) become Lean functions;
* the external collaborators (OpenAI completion client, `json.loads`,
  Asana tasks API, environment variables) are parameters gathered in
  `Env`/`World` records, so theorems quantify over their behaviour;
* Python exceptions crossing a function boundary become the
  `PyResult.raised` constructor, and the `try/except` structure of
  `prompt_ai`/`main` is translated control-flow path by path.
-/

namespace AsanaAgent

/-! ## Calendar dates: model of Python `datetime.date` and the `%Y-%m-%d`
validation performed by `datetime.strptime` (CPython `_strptime.py`). -/

structure Date where
  year : Nat
  month : Nat
  day : Nat
deriving DecidableEq, Repr

def isLeapYear (y : Nat) : Bool :=
  (y % 4 == 0 && y % 100 != 0) || y % 400 == 0

def daysInMonth (y m : Nat) : Nat :=
  if m == 2 then (if isLeapYear y then 29 else 28)
  else if m == 4 || m == 6 || m == 9 || m == 11 then 30
  else 31

/-- Validity check of `datetime.date(year, month, day)`: CPython accepts
years 1..9999 and a day within the month's length. -/
def Date.valid (d : Date) : Bool :=
  decide (1 ≤ d.year) && decide (d.year ≤ 9999) &&
  decide (1 ≤ d.month) && decide (d.month ≤ 12) &&
  decide (1 ≤ d.day) && decide (d.day ≤ daysInMonth d.year d.month)

def pad2 (n : Nat) : String :=
  if n < 10 then "0" ++ toString n else toString n

def pad4 (n : Nat) : String :=
  if n < 10 then "000" ++ toString n
  else if n < 100 then "00" ++ toString n
  else if n < 1000 then "0" ++ toString n
  else toString n

/-- `str(datetime.date(...))`: ISO format `YYYY-MM-DD`, zero padded. -/
def Date.iso (d : Date) : String :=
  pad4 d.year ++ "-" ++ pad2 d.month ++ "-" ++ pad2 d.day

def digitVal (c : Char) : Nat := c.toNat - 48

/-- The `%Y` field of CPython `strptime`: exactly four ASCII digits. -/
def matchYear (cs : List Char) : Option Nat :=
  match cs with
  | [a, b, c, d] =>
    if a.isDigit && b.isDigit && c.isDigit && d.isDigit then
      some (digitVal a * 1000 + digitVal b * 100 + digitVal c * 10 + digitVal d)
    else none
  | _ => none

/-- The `%m` field of CPython `strptime`, regex `1[0-2]|0[1-9]|[1-9]`:
one or two digits, month 1..12, leading zero optional. -/
def matchMonth (cs : List Char) : Option Nat :=
  match cs with
  | [c] => if decide ('1' ≤ c) && decide (c ≤ '9') then some (digitVal c) else none
  | [c1, c2] =>
    if c1 == '0' && decide ('1' ≤ c2) && decide (c2 ≤ '9') then some (digitVal c2)
    else if c1 == '1' && decide ('0' ≤ c2) && decide (c2 ≤ '2') then some (10 + digitVal c2)
    else none
  | _ => none

/-- The `%d` field of CPython `strptime`, regex
`3[01]|[12]\d|0[1-9]|[1-9]| [1-9]`: one or two digits, day 1..31,
leading zero or even a leading space allowed. -/
def matchDay (cs : List Char) : Option Nat :=
  match cs with
  | [c] => if decide ('1' ≤ c) && decide (c ≤ '9') then some (digitVal c) else none
  | [c1, c2] =>
    if c1 == '3' && decide ('0' ≤ c2) && decide (c2 ≤ '1') then some (30 + digitVal c2)
    else if (c1 == '1' || c1 == '2') && c2.isDigit then some (digitVal c1 * 10 + digitVal c2)
    else if c1 == '0' && decide ('1' ≤ c2) && decide (c2 ≤ '9') then some (digitVal c2)
    else if c1 == ' ' && decide ('1' ≤ c2) && decide (c2 ≤ '9') then some (digitVal c2)
    else none
  | _ => none

/-- Split a character list at every `-` (the behaviour of
`s.split("-")` on the field boundaries of the `%Y-%m-%d` regex). -/
def splitDash (cs : List Char) : List (List Char) :=
  match cs with
  | [] => [[]]
  | c :: rest =>
    if c == '-' then [] :: splitDash rest
    else
      match splitDash rest with
      | [] => [[c]]
      | p :: ps => (c :: p) :: ps

/-- `datetime.strptime(s, "%Y-%m-%d")`: the compiled regex
`(\d\d\d\d)-(month)-(day)` must match the whole string (the field patterns
match no `-`, so splitting at `-` is equivalent), and the resulting
`datetime` constructor call must accept the numbers.  Returns the parsed
date, or `none` where Python raises `ValueError`. -/
def strptimeYmd (s : String) : Option Date :=
  match splitDash s.data with
  | [ys, ms, ds] =>
    match matchYear ys, matchMonth ms, matchDay ds with
    | some y, some m, some d =>
      if (Date.mk y m d).valid then some (Date.mk y m d) else none
    | _, _, _ => none
  | _ => none

/-! ## Python string helpers used by the agent. -/

/-- ASCII whitespace stripped by `str.strip()`. -/
def isPyWhitespace (c : Char) : Bool :=
  c == ' ' || c == '\t' || c == '\n' || c == '\r' || c == '\x0b' || c == '\x0c'

/-- `s.strip()`. -/
def pyStrip (s : String) : String :=
  String.mk (((s.data.dropWhile isPyWhitespace).reverse.dropWhile isPyWhitespace).reverse)

/-- `s.lower()` (ASCII fragment). -/
def pyLower (s : String) : String :=
  String.mk (s.data.map Char.toLower)

/-! ## `create_asana_task` (agent.py lines 50-88). -/

/-- The payload handed to `tasks_api_instance.create_task`
(the `"data"` object of `task_body`). -/
structure TaskBody where
  name : String
  due_on : String
  projects : List String
deriving DecidableEq, Repr

/-- Outcome of the external Asana call `tasks_api_instance.create_task`:
either a response object (already rendered by `json.dumps(_, indent=2)`)
or a raised `ApiException` with message `msg`. -/
inductive BackendResult where
  | success (receipt : String)
  | apiException (msg : String)
deriving DecidableEq, Repr

/-- Process-wide ambient state read by `create_asana_task`:
the current local date (`datetime.now().date()`), the
`ASANA_PROJECT_ID` environment variable (`none` = unset), and the
Asana backend. -/
structure Env where
  today : Date
  projectId : Option String
  backend : TaskBody → BackendResult

/-- Result of a Python call: normal return, or an exception escaping the
function. -/
inductive PyResult (α : Type) where
  | ok (val : α)
  | raised (msg : String)
deriving DecidableEq, Repr

def PyResult.isOk {α : Type} : PyResult α → Bool
  | .ok _ => true
  | .raised _ => false

/-- Python truthiness of `os.getenv(...)`: unset or empty string is falsy. -/
def pyTruthyOpt : Option String → Bool
  | none => false
  | some s => !s.isEmpty

/-- Lines 64-70 of agent.py: the literal sentinel `"today"` is replaced by
`str(datetime.now().date())`; any other string is validated with
`strptime(due_on, "%Y-%m-%d")` and passed through unchanged, `none`
standing for the raised `ValueError`. -/
def resolveDueOn (today : Date) (due_on : String) : Option String :=
  if due_on == "today" then some today.iso
  else
    match strptimeYmd due_on with
    | some _ => some due_on
    | none => none

/-- `create_asana_task(task_name, due_on)` (agent.py lines 50-88).
`PyResult.raised` marks the `raise ValueError(...)` statements; only the
backend `ApiException` is caught and turned into returned text. -/
def create_asana_task (env : Env) (task_name : String) (due_on : String) : PyResult String :=
  if (pyStrip task_name).isEmpty then PyResult.raised "Task name cannot be empty"
  else
    match resolveDueOn env.today due_on with
    | none => PyResult.raised "due_on must be in YYYY-MM-DD format"
    | some due =>
      if !pyTruthyOpt env.projectId then
        PyResult.raised "ASANA_PROJECT_ID environment variable is not set"
      else
        match env.backend (TaskBody.mk task_name due (env.projectId.toList)) with
        | BackendResult.success receipt => PyResult.ok receipt
        | BackendResult.apiException msg =>
          PyResult.ok ("Exception when calling TasksApi->create_task: " ++ msg)

/-! ## Tool-call dispatch inside `prompt_ai` (agent.py lines 144-172).

`json.loads` and the `**kwargs` application of `create_asana_task` are the
remaining Python-level pieces: `json.loads` is an external library and is
modelled as an oracle in `World`; the keyword-argument application is
translated explicitly below. -/

/-- A JSON value as produced by `json.loads`, restricted to what the
dispatch code can observe: a string, or anything else (number, bool,
null, array, nested object) — every non-string value makes the
`create_asana_task` call raise before reaching the Asana backend. -/
inductive PyVal where
  | vstr (s : String)
  | vother
deriving DecidableEq, Repr

/-- The top-level shape of a successfully parsed arguments payload:
a JSON object (a Python dict), or some other JSON value, on which the
`**` unpacking raises `TypeError`. -/
inductive Parsed where
  | pobj (fields : List (String × PyVal))
  | pnonobj
deriving DecidableEq, Repr

def lookupField (fields : List (String × PyVal)) (k : String) : Option PyVal :=
  match fields.find? (fun kv => kv.1 == k) with
  | some kv => some kv.2
  | none => none

/-- `create_asana_task(**function_args)`: Python keyword-argument
application.  Unexpected keys or a missing `task_name` raise `TypeError`;
non-string values raise (`TypeError`/`AttributeError`) at the point the
function body first uses them; string values reach `create_asana_task`,
with `due_on` defaulting to `"today"` when absent. -/
def callCreateAsanaTask (env : Env) (fields : List (String × PyVal)) : PyResult String :=
  if fields.any (fun kv => !(kv.1 == "task_name" || kv.1 == "due_on")) then
    PyResult.raised "TypeError: unexpected keyword argument"
  else
    match lookupField fields "task_name", lookupField fields "due_on" with
    | none, _ => PyResult.raised "TypeError: missing required argument task_name"
    | some PyVal.vother, _ => PyResult.raised "TypeError: task_name is not a string"
    | some (PyVal.vstr n), none => create_asana_task env n "today"
    | some (PyVal.vstr n), some (PyVal.vstr d) => create_asana_task env n d
    | some (PyVal.vstr n), some PyVal.vother =>
      if (pyStrip n).isEmpty then PyResult.raised "Task name cannot be empty"
      else PyResult.raised "TypeError: strptime argument must be str"

/-! ## Messages and completions. -/

inductive Role where
  | system
  | user
  | assistant
  | tool
deriving DecidableEq, Repr

/-- One entry of `response_message.tool_calls`. -/
structure ToolCall where
  id : String
  name : String
  arguments : String
deriving DecidableEq, Repr

/-- A chat message as appended to the `messages` list.  `tool_calls = []`
models the Python `None`/empty cases uniformly (`if tool_calls:` is falsy
for both). -/
structure Message where
  role : Role
  content : Option String
  tool_call_id : Option String
  name : Option String
  tool_calls : List ToolCall
deriving DecidableEq, Repr

/-- Outcome of one `client.chat.completions.create(...)` call: a raised
exception, or a response carrying its list of `choices` (each reduced to
its `.message`). -/
inductive ChatCompletion where
  | apiError (msg : String)
  | choices (msgs : List Message)

/-- All external behaviour one `prompt_ai` call can observe: the ambient
`create_asana_task` environment, the `json.loads` oracle
(`Except.error` = `json.JSONDecodeError`), and the outcomes of the first
and second completion calls. -/
structure World where
  env : Env
  jsonLoads : String → Except String Parsed
  first : ChatCompletion
  second : ChatCompletion

/-- Texts returned by the `except` arms of `prompt_ai` (agent.py lines
167-188). -/
def apologyArgs : String := "I encountered an error processing the function arguments."

def apologyExec : String := "I encountered an error while trying to execute the requested action."

def apologySecond : String := "I encountered an error while processing the response."

def apologyOuter : String := "I encountered an error while processing your request. Please try again."

/-- Outcome of the body of one iteration of the tool-call loop
(agent.py lines 152-166), before its `except` arms fire. -/
inductive CallOutcome where
  | success (content : String)
  | argsError (msg : String)
  | execError (msg : String)
deriving DecidableEq, Repr

def CallOutcome.isSuccess : CallOutcome → Bool
  | .success _ => true
  | _ => false

/-- Lines 152-159: the function name is checked against
`available_functions` first, then the arguments string is parsed with
`json.loads`, then the function is applied with `**function_args`.
`argsError` is a `json.JSONDecodeError`, `execError` any other
exception. -/
def dispatchCall (w : World) (tc : ToolCall) : CallOutcome :=
  if !(tc.name == "create_asana_task") then
    CallOutcome.execError ("Unknown function: " ++ tc.name)
  else
    match w.jsonLoads tc.arguments with
    | Except.error m => CallOutcome.argsError m
    | Except.ok Parsed.pnonobj => CallOutcome.execError "TypeError: arguments must be a mapping"
    | Except.ok (Parsed.pobj fields) =>
      match callCreateAsanaTask w.env fields with
      | PyResult.ok content => CallOutcome.success content
      | PyResult.raised m => CallOutcome.execError m

/-- The tool-role message appended at lines 161-166. -/
def toolMessage (tc : ToolCall) (content : String) : Message :=
  Message.mk Role.tool (some content) (some tc.id) (some tc.name) []

/-- The `for tool_call in tool_calls` loop (lines 151-172): each
successful call appends its tool message and the loop continues; a
`json.JSONDecodeError` or any other exception makes `prompt_ai` return
at once (`some answer`), leaving the messages appended so far. -/
def runToolCalls (w : World) : List ToolCall → List Message → List Message × Option String
  | [], msgs => (msgs, none)
  | tc :: rest, msgs =>
    match dispatchCall w tc with
    | CallOutcome.success content => runToolCalls w rest (msgs ++ [toolMessage tc content])
    | CallOutcome.argsError _ => (msgs, some apologyArgs)
    | CallOutcome.execError _ => (msgs, some apologyExec)

/-- `prompt_ai(messages)` (agent.py lines 119-188), returning the answer
(`response_message.content` may be Python `None`, hence `Option`) and
the final state of the `messages` list.  The function is total: every
statement of the Python body sits inside `try: ... except Exception`,
so no exception escapes it. -/
def prompt_ai (w : World) (messages : List Message) : Option String × List Message :=
  match w.first with
  | ChatCompletion.apiError _ => (some apologyOuter, messages)
  | ChatCompletion.choices [] => (some apologyOuter, messages)
  | ChatCompletion.choices (rm :: _) =>
    match rm.tool_calls with
    | [] => (rm.content, messages)
    | _ :: _ =>
      match runToolCalls w rm.tool_calls (messages ++ [rm]) with
      | (msgs2, some earlyAnswer) => (some earlyAnswer, msgs2)
      | (msgs2, none) =>
        match w.second with
        | ChatCompletion.choices (sm :: _) => (sm.content, msgs2)
        | _ => (some apologySecond, msgs2)

/-! ## The session loop (`main`, agent.py lines 190-223). -/

/-- The seeded system message (lines 192-195). -/
def systemMessage (today : Date) : Message :=
  Message.mk Role.system
    (some ("You are a personal assistant who helps manage tasks in Asana. The current date is: " ++ today.iso))
    none none []

def userMessage (s : String) : Message :=
  Message.mk Role.user (some s) none none []

def assistantMessage (a : Option String) : Message :=
  Message.mk Role.assistant a none none []

/-- What one iteration of the `while True` loop does with one input line. -/
inductive StepResult where
  | quit (msgs : List Message)
  | reprompt (msgs : List Message)
  | answered (msgs : List Message) (printed : Option String)
deriving DecidableEq

/-- One iteration of the loop at lines 199-215: strip the line; quit on
`q` (case-insensitive); re-prompt on empty; otherwise append the user
message, run `prompt_ai`, print the answer and append it as the
assistant message. -/
def sessionStep (w : World) (msgs : List Message) (raw : String) : StepResult :=
  let user_input := pyStrip raw
  if pyLower user_input == "q" then StepResult.quit msgs
  else if user_input == "" then StepResult.reprompt msgs
  else
    let msgs1 := msgs ++ [userMessage user_input]
    let r := prompt_ai w msgs1
    StepResult.answered (r.2 ++ [assistantMessage r.1]) r.1

/-- The message list a loop iteration leaves behind. -/
def doTurn (w : World) (raw : String) (msgs : List Message) : List Message :=
  match sessionStep w msgs raw with
  | StepResult.quit m => m
  | StepResult.reprompt m => m
  | StepResult.answered m _ => m

/-- Several consecutive loop iterations, each with its own input line and
external-world behaviour. -/
def runTurns (turns : List (World × String)) (msgs : List Message) : List Message :=
  match turns with
  | [] => msgs
  | (w, raw) :: rest => runTurns rest (doTurn w raw msgs)

/-! ## Spec-side definition for the strict-format refinement claim. -/

/-- Modelled from the spec: "validate strict YYYY-MM-DD format ... and is
parseable as a real calendar date" — exactly four digits, a dash, exactly
two digits, a dash, exactly two digits, denoting a real calendar date.
Stated from the spec's words, to be compared with `strptimeYmd`, which is
translated from the source. -/
def specStrictYmd (s : String) : Bool :=
  match s.data with
  | [y1, y2, y3, y4, s1, m1, m2, s2, d1, d2] =>
    s1 == '-' && s2 == '-' &&
    [y1, y2, y3, y4, m1, m2, d1, d2].all Char.isDigit &&
    (Date.mk
      (digitVal y1 * 1000 + digitVal y2 * 100 + digitVal y3 * 10 + digitVal y4)
      (digitVal m1 * 10 + digitVal m2)
      (digitVal d1 * 10 + digitVal d2)).valid
  | _ => false

/-! ## Helper lemmas. -/

theorem strptimeYmd_valid {s : String} {d : Date} (h : strptimeYmd s = some d) :
    d.valid = true := by
  unfold strptimeYmd at h
  repeat' split at h
  all_goals simp_all

theorem runToolCalls_success (w : World) (cs : List ToolCall) (msgs : List Message)
    (h : ∀ tc ∈ cs, (dispatchCall w tc).isSuccess = true) :
    ∃ contents : List String, contents.length = cs.length ∧
      runToolCalls w cs msgs =
        (msgs ++ (cs.zip contents).map (fun p => toolMessage p.1 p.2), none) := by
  induction cs generalizing msgs with
  | nil => exact ⟨[], rfl, by simp [runToolCalls]⟩
  | cons tc rest ih =>
    have htc := h tc (by simp)
    cases hd : dispatchCall w tc with
    | success content =>
      obtain ⟨contents, hlen, heq⟩ :=
        ih (msgs ++ [toolMessage tc content]) (fun c hc => h c (by simp [hc]))
      refine ⟨content :: contents, by simp [hlen], ?_⟩
      simp only [runToolCalls, hd]
      rw [heq]
      simp
    | argsError m => rw [hd] at htc; simp [CallOutcome.isSuccess] at htc
    | execError m => rw [hd] at htc; simp [CallOutcome.isSuccess] at htc

theorem runToolCalls_failure (w : World) (cs1 : List ToolCall) (tc : ToolCall)
    (cs2 : List ToolCall) (msgs : List Message)
    (h1 : ∀ c ∈ cs1, (dispatchCall w c).isSuccess = true)
    (h2 : (dispatchCall w tc).isSuccess = false) :
    ∃ contents : List String, contents.length = cs1.length ∧
      runToolCalls w (cs1 ++ tc :: cs2) msgs =
        (msgs ++ (cs1.zip contents).map (fun p => toolMessage p.1 p.2),
         some (match dispatchCall w tc with
               | CallOutcome.argsError _ => apologyArgs
               | _ => apologyExec)) := by
  induction cs1 generalizing msgs with
  | nil =>
    refine ⟨[], rfl, ?_⟩
    cases hd : dispatchCall w tc with
    | success content => rw [hd] at h2; simp [CallOutcome.isSuccess] at h2
    | argsError m => simp [runToolCalls, hd]
    | execError m => simp [runToolCalls, hd]
  | cons c rest ih =>
    have hc := h1 c (by simp)
    cases hd : dispatchCall w c with
    | success content =>
      obtain ⟨contents, hlen, heq⟩ :=
        ih (msgs ++ [toolMessage c content]) (fun x hx => h1 x (by simp [hx]))
      refine ⟨content :: contents, by simp [hlen], ?_⟩
      simp only [List.cons_append, runToolCalls, hd, List.append_eq]
      rw [heq]
      simp
    | argsError m => rw [hd] at hc; simp [CallOutcome.isSuccess] at hc
    | execError m => rw [hd] at hc; simp [CallOutcome.isSuccess] at hc

theorem zip_toolMessage_fields (cs : List ToolCall) (contents : List String)
    (h : contents.length = cs.length) :
    ((cs.zip contents).map (fun p => toolMessage p.1 p.2)).map Message.tool_call_id
        = cs.map (fun tc => some tc.id) ∧
    ((cs.zip contents).map (fun p => toolMessage p.1 p.2)).map Message.role
        = cs.map (fun _ => Role.tool) := by
  induction cs generalizing contents with
  | nil => simp
  | cons c rest ih =>
    cases contents with
    | nil => simp at h
    | cons t ts =>
      have h' := ih ts (by simpa using h)
      simp only [List.zip_cons_cons, List.map_cons, h'.1, h'.2]
      simp [toolMessage]

/-- `prompt_ai` on a plain-reply first completion: the answer is the
message's content and the history is untouched. -/
theorem prompt_ai_plain (w : World) (messages : List Message) (rm : Message)
    (rest : List Message)
    (h1 : w.first = ChatCompletion.choices (rm :: rest))
    (h2 : rm.tool_calls = []) :
    prompt_ai w messages = (rm.content, messages) := by
  obtain ⟨env, jl, first, second⟩ := w
  simp only at h1
  subst h1
  simp [prompt_ai, h2]

/-- `prompt_ai` on a tool-call turn whose dispatches all succeed: the
assistant message and one tool message per call are appended, and the
answer is decided by the second completion alone. -/
theorem prompt_ai_toolpath (w : World) (messages : List Message) (rm : Message)
    (rest : List Message)
    (h1 : w.first = ChatCompletion.choices (rm :: rest))
    (h2 : rm.tool_calls ≠ [])
    (h3 : ∀ tc ∈ rm.tool_calls, (dispatchCall w tc).isSuccess = true) :
    ∃ contents : List String, contents.length = rm.tool_calls.length ∧
      prompt_ai w messages =
        ((match w.second with
          | ChatCompletion.choices (sm :: _) => sm.content
          | _ => some apologySecond),
         (messages ++ [rm]) ++ (rm.tool_calls.zip contents).map (fun p => toolMessage p.1 p.2)) := by
  obtain ⟨contents, hlen, heq⟩ := runToolCalls_success w rm.tool_calls (messages ++ [rm]) h3
  refine ⟨contents, hlen, ?_⟩
  obtain ⟨env, jl, first, second⟩ := w
  simp only at h1
  subst h1
  cases htc : rm.tool_calls with
  | nil => exact absurd htc h2
  | cons tc0 cs0 =>
    rw [htc] at heq
    simp only [prompt_ai, htc, heq]
    cases second with
    | apiError m => rfl
    | choices l => cases l <;> rfl

/-- `prompt_ai` on a tool-call turn one of whose dispatches fails: the
loop stops at the failing call, nothing is appended for it or its
successors, and the corresponding apology is returned at once. -/
theorem prompt_ai_toolfail (w : World) (messages : List Message) (rm : Message)
    (rest : List Message) (cs1 cs2 : List ToolCall) (tc : ToolCall)
    (h1 : w.first = ChatCompletion.choices (rm :: rest))
    (h2 : rm.tool_calls = cs1 ++ tc :: cs2)
    (h3 : ∀ c ∈ cs1, (dispatchCall w c).isSuccess = true)
    (h4 : (dispatchCall w tc).isSuccess = false) :
    ∃ contents : List String, contents.length = cs1.length ∧
      prompt_ai w messages =
        (some (match dispatchCall w tc with
               | CallOutcome.argsError _ => apologyArgs
               | _ => apologyExec),
         (messages ++ [rm]) ++ (cs1.zip contents).map (fun p => toolMessage p.1 p.2)) := by
  obtain ⟨contents, hlen, heq⟩ := runToolCalls_failure w cs1 tc cs2 (messages ++ [rm]) h3 h4
  refine ⟨contents, hlen, ?_⟩
  obtain ⟨env, jl, first, second⟩ := w
  simp only at h1
  subst h1
  cases htc : rm.tool_calls with
  | nil =>
    rw [htc] at h2
    cases cs1 <;> simp at h2
  | cons a l =>
    rw [htc] at h2
    rw [← h2] at heq
    simp only [prompt_ai, htc, heq]

theorem sessionStep_quit (w : World) (msgs : List Message) (raw : String)
    (hq : (pyLower (pyStrip raw) == "q") = true) :
    sessionStep w msgs raw = StepResult.quit msgs := by
  simp [sessionStep, hq]

theorem sessionStep_reprompt (w : World) (msgs : List Message) (raw : String)
    (hq : (pyLower (pyStrip raw) == "q") = false)
    (he : (pyStrip raw == "") = true) :
    sessionStep w msgs raw = StepResult.reprompt msgs := by
  simp only [sessionStep, hq, he]
  rfl

theorem sessionStep_answered (w : World) (msgs : List Message) (raw : String)
    (hq : (pyLower (pyStrip raw) == "q") = false)
    (he : (pyStrip raw == "") = false) :
    sessionStep w msgs raw =
      StepResult.answered
        ((prompt_ai w (msgs ++ [userMessage (pyStrip raw)])).2 ++
          [assistantMessage (prompt_ai w (msgs ++ [userMessage (pyStrip raw)])).1])
        (prompt_ai w (msgs ++ [userMessage (pyStrip raw)])).1 := by
  simp only [sessionStep, hq, he]
  rfl

/-- A world whose first completion is a plain reply (no tool calls). -/
def plainReplyWorld (w : World) : Bool :=
  match w.first with
  | ChatCompletion.choices (rm :: _) => rm.tool_calls.isEmpty
  | _ => false

/-- One loop iteration that completes a plain user/assistant exchange:
the input line is neither the quit sentinel nor empty, and the first
completion is a plain reply. -/
def plainTurn (p : World × String) : Bool :=
  plainReplyWorld p.1 && !(pyLower (pyStrip p.2) == "q") && !(pyStrip p.2 == "")

theorem doTurn_plain (w : World) (raw : String) (msgs : List Message)
    (h : plainTurn (w, raw) = true) :
    (doTurn w raw msgs).length = msgs.length + 2 := by
  simp only [plainTurn, Bool.and_eq_true, Bool.not_eq_true'] at h
  obtain ⟨⟨hw, hq⟩, he⟩ := h
  obtain ⟨rm, rest, h1, h2⟩ :
      ∃ rm rest, w.first = ChatCompletion.choices (rm :: rest) ∧ rm.tool_calls = [] := by
    unfold plainReplyWorld at hw
    cases hf : w.first with
    | apiError m => rw [hf] at hw; simp at hw
    | choices l =>
      cases l with
      | nil => rw [hf] at hw; simp at hw
      | cons rm rest =>
        rw [hf] at hw
        simp only [List.isEmpty_iff] at hw
        exact ⟨rm, rest, rfl, hw⟩
  unfold doTurn
  rw [sessionStep_answered w msgs raw hq he,
      prompt_ai_plain w (msgs ++ [userMessage (pyStrip raw)]) rm rest h1 h2]
  simp

theorem runTurns_plain (turns : List (World × String)) (msgs : List Message)
    (h : ∀ p ∈ turns, plainTurn p = true) :
    (runTurns turns msgs).length = msgs.length + 2 * turns.length := by
  induction turns generalizing msgs with
  | nil => simp [runTurns]
  | cons p rest ih =>
    cases p with
    | mk w raw =>
      have hstep := doTurn_plain w raw msgs (h (w, raw) (by simp))
      simp only [runTurns]
      rw [ih (doTurn w raw msgs) (fun q hq => h q (by simp [hq])), hstep]
      simp
      ring

theorem doTurn_tool (w : World) (raw : String) (msgs : List Message) (rm : Message)
    (rest : List Message)
    (hq : (pyLower (pyStrip raw) == "q") = false)
    (he : (pyStrip raw == "") = false)
    (h1 : w.first = ChatCompletion.choices (rm :: rest))
    (h2 : rm.tool_calls ≠ [])
    (h3 : ∀ tc ∈ rm.tool_calls, (dispatchCall w tc).isSuccess = true) :
    (doTurn w raw msgs).length = msgs.length + rm.tool_calls.length + 3 := by
  obtain ⟨contents, hlen, heq⟩ :=
    prompt_ai_toolpath w (msgs ++ [userMessage (pyStrip raw)]) rm rest h1 h2 h3
  unfold doTurn
  rw [sessionStep_answered w msgs raw hq he, heq]
  simp [List.length_zip, hlen]
  omega

/-! ## Concrete instances used by witnesses and counterexamples. -/

def demoEnv : Env :=
  Env.mk (Date.mk 2025 1 15) (some "proj-1") (fun _ => BackendResult.success "receipt")

def noProjectEnv : Env :=
  Env.mk (Date.mk 2025 1 15) none (fun _ => BackendResult.success "receipt")

def demoCallA : ToolCall := ToolCall.mk "call-1" "create_asana_task" "argsA"

def demoCallB : ToolCall := ToolCall.mk "call-2" "create_asana_task" "argsB"

def demoToolAssistant : Message :=
  Message.mk Role.assistant none none none [demoCallA, demoCallB]

def demoPlainAssistant : Message :=
  Message.mk Role.assistant (some "hi there") none none []

def demoFinalAssistant : Message :=
  Message.mk Role.assistant (some "done") none none []

def okArgsOracle : String → Except String Parsed :=
  fun _ => Except.ok (Parsed.pobj [("task_name", PyVal.vstr "Buy milk")])

def demoToolWorld : World :=
  World.mk demoEnv okArgsOracle (ChatCompletion.choices [demoToolAssistant])
    (ChatCompletion.choices [demoFinalAssistant])

def demoPlainWorld : World :=
  World.mk demoEnv (fun _ => Except.error "unused") (ChatCompletion.choices [demoPlainAssistant])
    (ChatCompletion.choices [])

def badArgsWorld : World :=
  World.mk demoEnv (fun _ => Except.error "Expecting value")
    (ChatCompletion.choices [demoToolAssistant]) (ChatCompletion.choices [demoFinalAssistant])

def unknownCall : ToolCall := ToolCall.mk "call-9" "delete_asana_task" "argsC"

def unknownToolAssistant : Message :=
  Message.mk Role.assistant none none none [unknownCall]

def unknownToolWorld : World :=
  World.mk demoEnv okArgsOracle (ChatCompletion.choices [unknownToolAssistant])
    (ChatCompletion.choices [demoFinalAssistant])

def failedFirstWorld : World :=
  World.mk demoEnv okArgsOracle (ChatCompletion.apiError "connection error")
    (ChatCompletion.choices [])

def badSecondWorld : World :=
  World.mk demoEnv okArgsOracle (ChatCompletion.choices [demoToolAssistant])
    (ChatCompletion.apiError "rate limit")

/-! ## Claim C1. -/

/-- Claim C1, counterexample: with a non-empty task name and the sentinel
due date, but `ASANA_PROJECT_ID` unset, `create_asana_task` raises a
`ValueError` past its boundary instead of returning a text — so the claim
as stated (text result for every valid name/date, never raises) is false:
configuration failures are raised, not surfaced as the returned string. -/
theorem c1_counterexample :
    (pyStrip "Buy milk").isEmpty = false ∧
    create_asana_task noProjectEnv "Buy milk" "today"
      = PyResult.raised "ASANA_PROJECT_ID environment variable is not set" := by
  constructor
  · decide
  · decide

/-- Claim C1 (amended): for every non-empty trimmed task name, every due
date that is the sentinel `"today"` or parseable by `%Y-%m-%d`, and a
configured (non-empty) project id, `create_asana_task` returns a text —
the backend receipt on success or the formatted `ApiException` text on a
backend failure — and never raises. -/
theorem c1_returns_text (env : Env) (task_name due_on : String)
    (hname : (pyStrip task_name).isEmpty = false)
    (hdue : due_on = "today" ∨ (strptimeYmd due_on).isSome = true)
    (hproj : pyTruthyOpt env.projectId = true) :
    (create_asana_task env task_name due_on).isOk = true := by
  have hres : ∃ s, resolveDueOn env.today due_on = some s := by
    rcases hdue with h | h
    · exact ⟨env.today.iso, by simp [resolveDueOn, h]⟩
    · rcases hs : strptimeYmd due_on with _ | d
      · rw [hs] at h; simp at h
      · by_cases ht : due_on = "today"
        · exact ⟨env.today.iso, by simp [resolveDueOn, ht]⟩
        · refine ⟨due_on, ?_⟩
          have hb : (due_on == "today") = false := by simpa using ht
          simp [resolveDueOn, hb, hs]
  obtain ⟨s, hres⟩ := hres
  simp only [create_asana_task, hname, Bool.false_eq_true, if_false, hres, hproj,
    Bool.not_true]
  cases env.backend (TaskBody.mk task_name s env.projectId.toList) <;> rfl

/-- Claim C1 witness. -/
theorem c1_witness :
    (pyStrip "Buy milk").isEmpty = false ∧
    (strptimeYmd "2025-01-20").isSome = true ∧
    pyTruthyOpt demoEnv.projectId = true ∧
    (create_asana_task demoEnv "Buy milk" "2025-01-20").isOk = true :=
  ⟨by decide, by decide, by decide,
   c1_returns_text demoEnv "Buy milk" "2025-01-20" (by decide) (Or.inr (by decide)) (by decide)⟩

/-! ## Claim C4. -/

/-- Claim C4, counterexample: the code's date validation is Python's
lenient `%Y-%m-%d` parse, not a strict `YYYY-MM-DD` match: `"2024-1-5"`
does not strictly match `YYYY-MM-DD` (spec-side `specStrictYmd`), yet
`strptimeYmd` accepts it and resolution succeeds, passing the string
through unchanged. -/
theorem c4_counterexample :
    specStrictYmd "2024-1-5" = false ∧
    strptimeYmd "2024-1-5" = some (Date.mk 2024 1 5) ∧
    resolveDueOn (Date.mk 2025 1 15) "2024-1-5" = some "2024-1-5" := by
  refine ⟨by decide, by decide, by decide⟩

/-- Claim C4 (amended): for due_on = "today" the resolved date is the
current local date in ISO `YYYY-MM-DD` form; any other value resolves
(to itself, unchanged) only if it parses under Python's lenient
`%Y-%m-%d` format and denotes a real calendar date; in particular
`"2024-13-40"` is rejected, and unparseable values fail. -/
theorem c4_due_date_resolution (today : Date) (due : String) (hdue : due ≠ "today") :
    resolveDueOn today "today" = some today.iso ∧
    strptimeYmd "2024-13-40" = none ∧
    (∀ r, resolveDueOn today due = some r →
      r = due ∧ ∃ d, strptimeYmd due = some d ∧ d.valid = true) ∧
    (strptimeYmd due = none → resolveDueOn today due = none) := by
  have hb : (due == "today") = false := by simpa using hdue
  refine ⟨by simp [resolveDueOn], by decide, ?_, ?_⟩
  · intro r hr
    rcases hs : strptimeYmd due with _ | d
    · simp [resolveDueOn, hb, hs] at hr
    · simp only [resolveDueOn, hb, Bool.false_eq_true, if_false, hs,
        Option.some.injEq] at hr
      exact ⟨hr.symm, d, rfl, strptimeYmd_valid hs⟩
  · intro hs
    simp [resolveDueOn, hb, hs]

/-- Claim C4 witness. -/
theorem c4_witness :
    ("2024-02-29" : String) ≠ "today" ∧
    resolveDueOn (Date.mk 2025 1 15) "today" = some "2025-01-15" ∧
    strptimeYmd "2024-13-40" = none := by
  have h := c4_due_date_resolution (Date.mk 2025 1 15) "2024-02-29" (by decide)
  refine ⟨by decide, ?_, h.2.1⟩
  rw [h.1]
  decide

/-! ## Claim C10. -/

/-- Claim C10: the `"today"` sentinel is matched by exact, case-sensitive
string equality; every other due_on (including `"Today"`, `"TODAY"`) is
passed through `%Y-%m-%d` validation unchanged, and the call raises the
`ValueError` if it does not parse. -/
theorem c10_sentinel_exact_match (env : Env) (today : Date) (name due : String)
    (hname : (pyStrip name).isEmpty = false)
    (hdue : due ≠ "today") :
    (∀ r, resolveDueOn today due = some r → r = due) ∧
    ((resolveDueOn today due).isSome = (strptimeYmd due).isSome) ∧
    (strptimeYmd due = none →
      create_asana_task env name due = PyResult.raised "due_on must be in YYYY-MM-DD format") := by
  have hb : (due == "today") = false := by simpa using hdue
  refine ⟨?_, ?_, ?_⟩
  · intro r hr
    rcases hs : strptimeYmd due with _ | d
    · simp [resolveDueOn, hb, hs] at hr
    · simp only [resolveDueOn, hb, Bool.false_eq_true, if_false, hs,
        Option.some.injEq] at hr
      exact hr.symm
  · rcases hs : strptimeYmd due with _ | d <;> simp [resolveDueOn, hb, hs]
  · intro hs
    simp [create_asana_task, hname, resolveDueOn, hb, hs]

/-- Claim C10 witness. -/
theorem c10_witness :
    (pyStrip "Call mom").isEmpty = false ∧
    ("Today" : String) ≠ "today" ∧
    strptimeYmd "Today" = none ∧
    create_asana_task demoEnv "Call mom" "Today"
      = PyResult.raised "due_on must be in YYYY-MM-DD format" := by
  have h := c10_sentinel_exact_match demoEnv (Date.mk 2025 1 15) "Call mom" "Today"
    (by decide) (by decide)
  exact ⟨by decide, by decide, by decide, h.2.2 (by decide)⟩

/-! ## Claim C2. -/

/-- Claim C2, counterexample: a batch of two tool calls whose first call
has malformed JSON arguments.  Contrary to the claim, no synthetic
tool-role result is appended for the failed call and the second call is
never processed: `prompt_ai` returns the parse-error apology at once and
the final history contains zero tool-role messages. -/
theorem c2_counterexample :
    prompt_ai badArgsWorld [] = (some apologyArgs, [demoToolAssistant]) ∧
    ((prompt_ai badArgsWorld []).2.filter (fun m => m.role == Role.tool)).length = 0 := by
  constructor
  · decide
  · decide

/-- Claim C2 (amended): a failure of one call in the batch (malformed
JSON arguments, unknown tool name, or any other dispatch-level error)
aborts the turn: `prompt_ai` immediately returns an apology text (the
argument-parse apology for a `JSONDecodeError`, the execution apology
otherwise), appends no tool-role message for the failed call, and does
not process the remaining calls of the batch. -/
theorem c2_failure_aborts_batch (w : World) (messages : List Message) (rm : Message)
    (rest : List Message) (cs1 cs2 : List ToolCall) (tc : ToolCall)
    (h1 : w.first = ChatCompletion.choices (rm :: rest))
    (h2 : rm.tool_calls = cs1 ++ tc :: cs2)
    (h3 : ∀ c ∈ cs1, (dispatchCall w c).isSuccess = true)
    (h4 : (dispatchCall w tc).isSuccess = false) :
    ∃ contents : List String, contents.length = cs1.length ∧
      prompt_ai w messages =
        (some (match dispatchCall w tc with
               | CallOutcome.argsError _ => apologyArgs
               | _ => apologyExec),
         (messages ++ [rm]) ++ (cs1.zip contents).map (fun p => toolMessage p.1 p.2)) :=
  prompt_ai_toolfail w messages rm rest cs1 cs2 tc h1 h2 h3 h4

/-- Claim C2 witness. -/
theorem c2_witness :
    prompt_ai badArgsWorld [systemMessage (Date.mk 2025 1 15)]
      = (some apologyArgs, [systemMessage (Date.mk 2025 1 15), demoToolAssistant]) := by
  obtain ⟨contents, hlen, heq⟩ :=
    c2_failure_aborts_batch badArgsWorld [systemMessage (Date.mk 2025 1 15)]
      demoToolAssistant [] [] [demoCallB] demoCallA rfl rfl (by simp) (by decide)
  have hc : contents = [] := List.length_eq_zero.mp hlen
  subst hc
  rw [heq]
  decide

/-! ## Claim C9. -/

/-- Claim C9: when a call of the batch fails after the assistant message
carrying the tool_calls was appended, the turn returns an apology while
history permanently keeps that assistant message, with tool-role results
only for the calls preceding the failed one — none for the failed call
nor any later call — leaving the tool_calls entries dangling. -/
theorem c9_dangling_tool_calls (w : World) (messages : List Message) (rm : Message)
    (rest : List Message) (cs1 cs2 : List ToolCall) (tc : ToolCall)
    (h1 : w.first = ChatCompletion.choices (rm :: rest))
    (h2 : rm.tool_calls = cs1 ++ tc :: cs2)
    (h3 : ∀ c ∈ cs1, (dispatchCall w c).isSuccess = true)
    (h4 : (dispatchCall w tc).isSuccess = false) :
    ((prompt_ai w messages).1 = some apologyArgs ∨
      (prompt_ai w messages).1 = some apologyExec) ∧
    rm ∈ (prompt_ai w messages).2 ∧
    (prompt_ai w messages).2.length = messages.length + 1 + cs1.length ∧
    ((prompt_ai w messages).2.drop (messages.length + 1)).map Message.tool_call_id
      = cs1.map (fun c => some c.id) := by
  obtain ⟨contents, hlen, heq⟩ := prompt_ai_toolfail w messages rm rest cs1 cs2 tc h1 h2 h3 h4
  rw [heq]
  refine ⟨?_, ?_, ?_, ?_⟩
  · cases hd : dispatchCall w tc with
    | success c => rw [hd] at h4; simp [CallOutcome.isSuccess] at h4
    | argsError m => left; rfl
    | execError m => right; rfl
  · simp
  · simp only [List.length_append, List.length_map, List.length_zip, hlen,
      Nat.min_self, List.length_cons, List.length_nil]
  · have hl : (messages ++ [rm]).length = messages.length + 1 := by simp
    rw [← hl, List.drop_left]
    exact (zip_toolMessage_fields cs1 contents hlen).1

/-- Claim C9 witness. -/
theorem c9_witness :
    ((prompt_ai unknownToolWorld []).1 = some apologyArgs ∨
      (prompt_ai unknownToolWorld []).1 = some apologyExec) ∧
    unknownToolAssistant ∈ (prompt_ai unknownToolWorld []).2 ∧
    (prompt_ai unknownToolWorld []).2.length = 1 := by
  have h := c9_dangling_tool_calls unknownToolWorld [] unknownToolAssistant [] [] []
    unknownCall rfl rfl (by simp) (by decide)
  exact ⟨h.1, h.2.1, by simpa using h.2.2.1⟩

/-! ## Claim C3. -/

/-- Claim C3, counterexample: one completed turn whose first completion
carries two tool calls (both dispatching successfully) leaves a history
of length 6 — system, user, assistant-with-tool-calls, two tool results,
assistant answer — not the claimed 1 + 2·1 + 2·2 = 7. -/
theorem c3_counterexample :
    (doTurn demoToolWorld "hi" [systemMessage (Date.mk 2025 1 15)]).length = 6 ∧
    (doTurn demoToolWorld "hi" [systemMessage (Date.mk 2025 1 15)]).length ≠ 1 + 2 * 1 + 2 * 2 := by
  constructor
  · decide
  · decide

/-- Claim C3 (amended): after N completed plain user/assistant turns the
history length is exactly 1 + 2N; a completed turn whose first completion
carries k tool calls (all dispatching successfully) adds k + 3 messages
(user, assistant tool-call message, k tool results, assistant answer) —
that is 2 + (k + 1) rather than the claimed 2 + 2k, the two formulas
agreeing only at k = 1. -/
theorem c3_history_length :
    (∀ (today : Date) (turns : List (World × String)),
      (∀ p ∈ turns, plainTurn p = true) →
      (runTurns turns [systemMessage today]).length = 1 + 2 * turns.length) ∧
    (∀ (w : World) (raw : String) (msgs : List Message) (rm : Message) (rest : List Message),
      (pyLower (pyStrip raw) == "q") = false →
      (pyStrip raw == "") = false →
      w.first = ChatCompletion.choices (rm :: rest) →
      rm.tool_calls ≠ [] →
      (∀ tc ∈ rm.tool_calls, (dispatchCall w tc).isSuccess = true) →
      (doTurn w raw msgs).length = msgs.length + rm.tool_calls.length + 3) := by
  constructor
  · intro today turns h
    rw [runTurns_plain turns _ h]
    simp
  · intro w raw msgs rm rest hq he h1 h2 h3
    exact doTurn_tool w raw msgs rm rest hq he h1 h2 h3

/-- Claim C3 witness. -/
theorem c3_witness :
    (runTurns [(demoPlainWorld, "hello"), (demoPlainWorld, "again")]
      [systemMessage (Date.mk 2025 1 15)]).length = 5 ∧
    (doTurn demoToolWorld "make a task" [systemMessage (Date.mk 2025 1 15)]).length = 6 := by
  constructor
  · have h := c3_history_length.1 (Date.mk 2025 1 15)
      [(demoPlainWorld, "hello"), (demoPlainWorld, "again")] (by decide)
    simpa using h
  · have h := c3_history_length.2 demoToolWorld "make a task"
      [systemMessage (Date.mk 2025 1 15)] demoToolAssistant [] (by decide) (by decide)
      rfl (by decide) (by decide)
    simpa [demoToolAssistant] using h

/-! ## Claim C5. -/

/-- Claim C5: when the first completion requests tool calls and each
dispatch succeeds, the tool-role result messages are appended to history
right after the assistant message, sequentially in exactly the order the
calls were received, and each carries the tool_call_id of the call it
answers. -/
theorem c5_tool_results_in_call_order (w : World) (messages : List Message) (rm : Message)
    (rest : List Message)
    (h1 : w.first = ChatCompletion.choices (rm :: rest))
    (h2 : rm.tool_calls ≠ [])
    (h3 : ∀ tc ∈ rm.tool_calls, (dispatchCall w tc).isSuccess = true) :
    ∃ tail : List Message,
      (prompt_ai w messages).2 = (messages ++ [rm]) ++ tail ∧
      tail.map Message.tool_call_id = rm.tool_calls.map (fun tc => some tc.id) ∧
      tail.map Message.role = rm.tool_calls.map (fun _ => Role.tool) := by
  obtain ⟨contents, hlen, heq⟩ := prompt_ai_toolpath w messages rm rest h1 h2 h3
  rw [heq]
  exact ⟨_, rfl, (zip_toolMessage_fields rm.tool_calls contents hlen).1,
    (zip_toolMessage_fields rm.tool_calls contents hlen).2⟩

/-- Claim C5 witness. -/
theorem c5_witness :
    demoToolWorld.first = ChatCompletion.choices [demoToolAssistant] ∧
    (prompt_ai demoToolWorld []).2.map Message.tool_call_id
      = [none, some "call-1", some "call-2"] := by
  obtain ⟨tail, hsplit, hids, hroles⟩ :=
    c5_tool_results_in_call_order demoToolWorld [] demoToolAssistant [] rfl
      (by decide) (by decide)
  refine ⟨rfl, ?_⟩
  rw [hsplit, List.map_append, hids]
  decide

/-! ## Claim C6. -/

/-- A first completion call that fails: the client raised, or the
response has no choices. -/
def firstFailed (w : World) : Bool :=
  match w.first with
  | ChatCompletion.apiError _ => true
  | ChatCompletion.choices [] => true
  | ChatCompletion.choices (_ :: _) => false

/-- Claim C6: if the first completion call of a turn fails (backend
exception or no choices), the turn aborts immediately with the generic
apologetic text, no exception propagates (the result is an ordinary
return value), and the conversation history is unchanged. -/
theorem c6_first_failure_aborts (w : World) (messages : List Message)
    (h : firstFailed w = true) :
    prompt_ai w messages = (some apologyOuter, messages) := by
  obtain ⟨env, jl, first, second⟩ := w
  simp only [firstFailed] at h
  cases first with
  | apiError m => rfl
  | choices l =>
    cases l with
    | nil => rfl
    | cons a b => simp at h

/-- Claim C6 witness. -/
theorem c6_witness :
    firstFailed failedFirstWorld = true ∧
    prompt_ai failedFirstWorld [systemMessage (Date.mk 2025 1 15)]
      = (some apologyOuter, [systemMessage (Date.mk 2025 1 15)]) :=
  ⟨by decide,
   c6_first_failure_aborts failedFirstWorld [systemMessage (Date.mk 2025 1 15)] (by decide)⟩

/-! ## Claim C7. -/

/-- A second completion call that fails: the client raised, or the
response has no choices (the `IndexError` on `choices[0]` is caught by
the same `except`). -/
def secondFailed (w : World) : Bool :=
  match w.second with
  | ChatCompletion.choices (_ :: _) => false
  | _ => true

/-- Claim C7: after the tool calls of a turn are processed, the second
completion's text is returned as the turn's answer; if that second call
fails, the turn returns the generic apologetic text instead of raising. -/
theorem c7_second_completion_answer (w : World) (messages : List Message) (rm : Message)
    (rest : List Message)
    (h1 : w.first = ChatCompletion.choices (rm :: rest))
    (h2 : rm.tool_calls ≠ [])
    (h3 : ∀ tc ∈ rm.tool_calls, (dispatchCall w tc).isSuccess = true) :
    (∀ sm srest, w.second = ChatCompletion.choices (sm :: srest) →
      (prompt_ai w messages).1 = sm.content) ∧
    (secondFailed w = true → (prompt_ai w messages).1 = some apologySecond) := by
  obtain ⟨contents, hlen, heq⟩ := prompt_ai_toolpath w messages rm rest h1 h2 h3
  rw [heq]
  constructor
  · intro sm srest hs
    rw [hs]
  · intro hs
    simp only [secondFailed] at hs
    cases h2nd : w.second with
    | apiError m => rfl
    | choices l =>
      cases l with
      | nil => rfl
      | cons a b => rw [h2nd] at hs; simp at hs

/-- Claim C7 witness. -/
theorem c7_witness :
    (prompt_ai demoToolWorld []).1 = some "done" ∧
    (prompt_ai badSecondWorld []).1 = some apologySecond := by
  constructor
  · have h := (c7_second_completion_answer demoToolWorld [] demoToolAssistant [] rfl
      (by decide) (by decide)).1 demoFinalAssistant [] rfl
    simpa [demoFinalAssistant] using h
  · exact (c7_second_completion_answer badSecondWorld [] demoToolAssistant [] rfl
      (by decide) (by decide)).2 (by decide)

/-! ## Claim C8. -/

/-- Claim C8: for every input line of the session loop — a trimmed line
equal to the quit sentinel `q` (case-insensitive) terminates the session
with history untouched; a line empty after trimming re-prompts without
mutating history; any other line is appended as a user message, the
orchestrator's answer is printed, and that same answer is appended as the
assistant message (even when it is a generic failure text, since the
equations hold for every `World`). -/
theorem c8_session_loop (w : World) (msgs : List Message) (raw : String) :
    ((pyLower (pyStrip raw) == "q") = true →
      sessionStep w msgs raw = StepResult.quit msgs) ∧
    ((pyLower (pyStrip raw) == "q") = false → (pyStrip raw == "") = true →
      sessionStep w msgs raw = StepResult.reprompt msgs) ∧
    ((pyLower (pyStrip raw) == "q") = false → (pyStrip raw == "") = false →
      sessionStep w msgs raw =
        StepResult.answered
          ((prompt_ai w (msgs ++ [userMessage (pyStrip raw)])).2 ++
            [assistantMessage (prompt_ai w (msgs ++ [userMessage (pyStrip raw)])).1])
          (prompt_ai w (msgs ++ [userMessage (pyStrip raw)])).1) :=
  ⟨sessionStep_quit w msgs raw, sessionStep_reprompt w msgs raw,
   sessionStep_answered w msgs raw⟩

/-- Claim C8 witness. -/
theorem c8_witness :
    sessionStep demoPlainWorld [] "  Q " = StepResult.quit [] ∧
    sessionStep demoPlainWorld [] "   " = StepResult.reprompt [] ∧
    sessionStep demoPlainWorld [] " hi " =
      StepResult.answered [userMessage "hi", assistantMessage (some "hi there")]
        (some "hi there") := by
  refine ⟨(c8_session_loop demoPlainWorld [] "  Q ").1 (by decide),
    (c8_session_loop demoPlainWorld [] "   ").2.1 (by decide) (by decide), ?_⟩
  have h := (c8_session_loop demoPlainWorld [] " hi ").2.2 (by decide) (by decide)
  rw [h]
  decide

end AsanaAgent
